import Mathlib

/-!
Verification development for the mean-reduction GLSL kernel generators of this
repository (tensorflow/lite/delegates/gpu/gl/kernels, drafts of mean.cc and
mean_reduce.cc) and for the delegate-plugin lifecycle shim.

The C++ sources are shallowly embedded:
* machine integers become Nat (all quantities involved are non-negative and far
  from overflow);
* shader arithmetic on vec4/float is modelled componentwise over Rat, i.e. in
  exact arithmetic (floating-point rounding is out of scope of the claims
  treated here);
* the fallible GenerateCode entry point becomes a function into Except;
* the emitted GLSL template text is embedded verbatim as String constants.
-/

/-- Axes of a tensor, from tensorflow/lite/delegates/gpu/common (enum Axis). -/
inductive Axis
  | unknown
  | channels
  | inputChannels
  | outputChannels
  | height
  | width
  | batch
  | value
  | depth
  deriving DecidableEq

/-- MeanAttributes from the common operator model: the set of reduction axes
(std::set of Axis becomes a Finset). -/
structure MeanAttributes where
  dims : Finset Axis
  deriving DecidableEq

/-- BHWC tensor shape (batch, height, width, channels), non-negative extents. -/
structure BHWC where
  b : Nat
  h : Nat
  w : Nat
  c : Nat
  deriving DecidableEq

/-- uint3 from delegates/gpu/common/types.h; uint3() default-constructs
to (0, 0, 0). -/
structure UInt3T where
  x : Nat
  y : Nat
  z : Nat
  deriving DecidableEq

/-- The zero value produced by the default constructor uint3(). -/
def uint3Zero : UInt3T := ⟨0, 0, 0⟩

/-- IOStructure of the GL node-shader interface: ONLY_DEFINITIONS emits only
declarations, AUTO binds the tensor automatically (the "fully bound" mode). -/
inductive IOStructure
  | onlyDefinitions
  | auto
  deriving DecidableEq

/-- GeneratedCode as filled in by the generators: named integer parameters,
shared-memory declarations (name and float4 element count), dispatch geometry,
the GLSL source text and the input/output binding modes. -/
structure GeneratedCode where
  parameters : List (String × Int)
  sharedVariables : List (String × Nat)
  workload : UInt3T
  workgroup : UInt3T
  sourceCode : String
  input : IOStructure
  output : IOStructure
  deriving DecidableEq

/-- The only error kind produced by the generators (InvalidArgumentError). -/
inductive GlError
  | invalidArgument (msg : String)
  deriving DecidableEq

/-- Projection used to state parameter-list facts about a generator result. -/
def genParams (r : Except GlError GeneratedCode) : Option (List (String × Int)) :=
  r.toOption.map fun g => g.parameters

/-- Projection used to state dispatch-geometry and shared-memory facts. -/
def genGeometry (r : Except GlError GeneratedCode) :
    Option (UInt3T × UInt3T × List (String × Nat)) :=
  r.toOption.map fun g => (g.workload, g.workgroup, g.sharedVariables)

/-- Projection used to state binding-mode facts. -/
def genIOModes (r : Except GlError GeneratedCode) : Option (IOStructure × IOStructure) :=
  r.toOption.map fun g => (g.input, g.output)

/-! ## The delegate-plugin lifecycle shim (src/unnamed/part_000)

The file declares four namespace-scope diagnostic counters, an
initialization routine that zeroes them, getters, and the create/destroy
entry points.  The create/destroy bodies call into the external GPU delegate
API and do not touch the counters.  The external API is abstracted as
function arguments. -/

/-- The four namespace-scope counters of the shim. -/
structure CounterState where
  num_delegates_created : Int
  num_delegates_destroyed : Int
  num_delegates_invoked : Int
  options_counter : Int
  deriving DecidableEq

/-- Embeds C++ initialize_counters(): sets every counter to zero. -/
def initCounters (_s : CounterState) : CounterState := ⟨0, 0, 0, 0⟩

/-- Embeds tflite_plugin_create_delegate: the body is a single call
TfLiteGpuDelegateCreate(nullptr) whose result is returned; the option
keys/values, the option count and the error handler are ignored, and no
counter is modified.  The external creation function is passed explicitly
and receives none (the nullptr argument). -/
def tflite_plugin_create_delegate {Delegate Options EH : Type}
    (TfLiteGpuDelegateCreate : Option Options → Delegate)
    (s : CounterState)
    (options_keys options_values : List String)
    (num_options : Nat)
    (error_handler : EH) : Delegate × CounterState :=
  (TfLiteGpuDelegateCreate none, s)

/-- Embeds tflite_plugin_destroy_delegate: calls TfLiteGpuDelegateDelete on
the handle and modifies no counter. -/
def tflite_plugin_destroy_delegate {Delegate : Type}
    (TfLiteGpuDelegateDelete : Delegate → Unit)
    (s : CounterState)
    (delegateHandle : Delegate) : CounterState :=
  let _ := TfLiteGpuDelegateDelete delegateHandle
  s

/-- Embeds get_num_delegates_created(). -/
def get_num_delegates_created (s : CounterState) : Int := s.num_delegates_created

/-- Embeds get_num_delegates_destroyed(). -/
def get_num_delegates_destroyed (s : CounterState) : Int := s.num_delegates_destroyed

/-- A call into the shim: either a creation (with its ignored arguments) or a
destruction of a previously created handle. -/
inductive PluginOp (Delegate : Type)
  | create (options_keys options_values : List String) (num_options : Nat)
  | destroy (delegateHandle : Delegate)

/-- Runs a sequence of create/destroy calls against the shim, threading the
counter state exactly as the C++ functions do. -/
def runPluginOps {Delegate Options EH : Type}
    (TfLiteGpuDelegateCreate : Option Options → Delegate)
    (TfLiteGpuDelegateDelete : Delegate → Unit)
    (error_handler : EH) :
    CounterState → List (PluginOp Delegate) → CounterState
  | s, [] => s
  | s, PluginOp.create ks vs n :: rest =>
      runPluginOps TfLiteGpuDelegateCreate TfLiteGpuDelegateDelete error_handler
        (tflite_plugin_create_delegate TfLiteGpuDelegateCreate s ks vs n error_handler).2 rest
  | s, PluginOp.destroy d :: rest =>
      runPluginOps TfLiteGpuDelegateCreate TfLiteGpuDelegateDelete error_handler
        (tflite_plugin_destroy_delegate TfLiteGpuDelegateDelete s d) rest

/-- Neither create nor destroy modifies any counter, so running any call
sequence leaves the state unchanged. -/
theorem runPluginOps_preserves {Delegate Options EH : Type}
    (gc : Option Options → Delegate) (gd : Delegate → Unit) (eh : EH)
    (s : CounterState) (ops : List (PluginOp Delegate)) :
    runPluginOps gc gd eh s ops = s := by
  induction ops with
  | nil => rfl
  | cons op rest ih =>
      cases op with
      | create ks vs n => simpa [runPluginOps, tflite_plugin_create_delegate] using ih
      | destroy d => simpa [runPluginOps, tflite_plugin_destroy_delegate] using ih

/-! ## Embedded GLSL template texts

The strings below reproduce the raw-string literals of the C++ drafts
verbatim (including the leftover merge-conflict markers of the first file's
small-input branch).  Literal curly braces are written with hex escapes. -/

/-- Newline, used to assemble the multi-line template texts. -/
def nlStr : String := "\x0a"

/-- The parallel (h*w >= 1024) template of the first mean.cc draft. -/
def meanDraftAParallelSource : String := String.intercalate nlStr [
  "        ",
  "        /*MEAN*/",
  "        highp vec4 sum = vec4(0.0);",
  "        highp float size = float($input_data_0_w$ * $input_data_0_h$);",
  "",
  "        const int groupsX = int(gl_NumWorkGroups.x);",
  "        const int groupsY = int(gl_NumWorkGroups.y);",
  "        const int sizeX = int(gl_WorkGroupSize.x);",
  "        const int sizeY = int(gl_WorkGroupSize.y);",
  "        ivec3 localID = ivec3(gl_LocalInvocationID.xyz);",
  "        int workGridSize = sizeX * sizeY * groupsX * groupsY;",
  "",
  "        int local_grid_index = sizeX * localID.y + localID.x;",
  "        int global_grid_index = gid.x * sizeX * sizeY * groupsY + gid.y * sizeX * sizeY;",
  "        ",
  "        int taskSize = int(ceil(size / float(workGridSize)));",
  "",
  "        int flattenedIndex = global_grid_index + local_grid_index;",
  "        int z_offset = gid.z * int(size);",
  "",
  "        int startIndex = flattenedIndex * taskSize;",
  "",
  "        for (int i = startIndex; i < startIndex + taskSize; i++) \x7b",
  "          sum += i < size ? $input_data_0[z_offset + i, 0, 0]$ : vec4(0.0);",
  "        \x7d",
  "",
  "        z_offset = gid.z * workGridSize;",
  "",
  "        sh_mem[flattenedIndex + z_offset] = sum;",
  "",
  "        memoryBarrierShared();",
  "        groupMemoryBarrier();",
  "        barrier();",
  "",
  "        if (gid.x >= 1 || gid.y >= 1)\x7b",
  "          return;",
  "        \x7d",
  "",
  "        sum = vec4(0.0);",
  "        ",
  "        for (int i = 0; i < workGridSize; i++)\x7b",
  "          sum += sh_mem[i + z_offset];  ",
  "        \x7d",
  "",
  "        value_0 = sum / size;",
  "      "]

/-- The serial (h*w < 1024) template of the first mean.cc draft; the raw
string literally contains unresolved merge-conflict markers around the
precision comment. -/
def meanDraftASerialSource : String := String.intercalate nlStr [
  "        ",
  "<<<<<<< Updated upstream",
  "=======",
  "        ",
  "        /*Shaders may be compiled with a precision hint mediump, which means that",
  "        GLSL compiler may drop the size of float data type from 32 to 16 bits.",
  "        If \"sum\" and \"size\" variables are 16bit floats, their values range",
  "        become not enough for providing a good results accuracy. That is why",
  "        their precision is forced to be 32bit by using highp qualifier.*/",
  "        ",
  ">>>>>>> Stashed changes",
  "        highp vec4 sum = vec4(0.0);",
  "        highp float size = float($input_data_0_w$ * $input_data_0_h$);",
  "        for (int h = 0; h < $input_data_0_h$; h++) \x7b",
  "          for (int w = 0; w < $input_data_0_w$; w++) \x7b",
  "            sum += $input_data_0[w, h, gid.z]$;",
  "          \x7d",
  "        \x7d",
  "",
  "        value_0 = sum / size;",
  "      "]

/-- The parallel (h*w >= 2048) template of the second mean.cc draft. -/
def meanDraftBParallelSource : String := String.intercalate nlStr [
  "        ",
  "        /*MEAN*/",
  "        highp vec4 sum = vec4(0.0);",
  "        highp vec4 zilch = vec4(0.0);",
  "        float cDim = float($input_data_0_c$);",
  "",
  "        if (gid.z >= cDim / 4.0)\x7b",
  "          return;",
  "        \x7d",
  "",
  "        highp float inputSize = float($input_data_0_w$ * $input_data_0_h$);",
  "",
  "        const int sizeY = int(gl_WorkGroupSize.y);",
  "        const int sizeX = int(gl_WorkGroupSize.x);",
  "        ivec3 localID = ivec3(gl_LocalInvocationID);",
  "",
  "        int workGridSize = sizeX * sizeY;",
  "        int taskSize = int(ceil(inputSize/float(workGridSize)));",
  "",
  "        int gridID = localID.y * sizeX + localID.x;",
  "        int z_offset = localID.z * int(inputSize);",
  "",
  "        int startIndex = gridID * taskSize;",
  "",
  "        for (int i = startIndex; i < startIndex + taskSize; i+=1) \x7b",
  "          sum += i >= inputSize ? zilch : $input_data_0[i + z_offset, 0, 0]$;",
  "        \x7d",
  "",
  "        z_offset = localID.z * workGridSize;",
  "",
  "        sh_mem[gridID + z_offset] = sum;",
  "",
  "        memoryBarrierShared();",
  "        barrier();",
  "",
  "        if (gid.x >= 1 || gid.y >= 1)\x7b",
  "          return;",
  "        \x7d",
  "",
  "        sum = vec4(0.0);",
  "        ",
  "        ",
  "        for (int i = 0; i < workGridSize; i++)\x7b",
  "          sum += sh_mem[i + z_offset];  ",
  "        \x7d",
  "",
  "        value_0 = sum / inputSize;",
  "      "]

/-- The serial (h*w < 2048) template of the second mean.cc draft; a stride-2
variant is left behind in a comment, the active loops stride by 1 and the
final expression multiplies the quotient by 1.0. -/
def meanDraftBSerialSource : String := String.intercalate nlStr [
  "        ",
  "        /*MEAN*/",
  "        /*",
  "        highp vec4 sum = vec4(0.0);",
  "        highp float size = float($input_data_0_w$ * $input_data_0_h$);",
  "        for (int h = 0; h < $input_data_0_h$; h+=2) \x7b",
  "          for (int w = 0; w < $input_data_0_w$; w+=2) \x7b",
  "            sum += $input_data_0[w, h, gid.z]$;",
  "          \x7d",
  "        \x7d",
  "",
  "        highp float c = float($input_data_0_c$);",
  "",
  "",
  "        */",
  "        if (gid.x >= 1 || gid.y >= 1 || gid.z >= 8)\x7b",
  "          return;",
  "        \x7d",
  "",
  "        highp vec4 sum = vec4(0.0);",
  "        highp float size = float($input_data_0_w$ * $input_data_0_h$);",
  "        for (int h = 0; h < $input_data_0_h$; h+=1) \x7b",
  "          for (int w = 0; w < $input_data_0_w$; w+=1) \x7b",
  "            sum += $input_data_0[w, h, gid.z]$;",
  "          \x7d",
  "        \x7d",
  "",
  "        value_0 = (sum / size) * 1.0;",
  "      "]

/-- The small-input (h*w <= 256) template of the third draft (part_002): every
invocation divides its own partial sum by size and writes it to value_0 before
the barrier, the shared-memory store lacks its semicolon, and the combine loop
after the barrier is empty. -/
def meanDraftCSmallSource : String := String.intercalate nlStr [
  "        ",
  "        /*MEAN*/",
  "        highp vec4 sum = vec4(0.0);",
  "        highp float size = float($input_data_0_w$ * $input_data_0_h$);",
  "",
  "        const int threads = int(gl_WorkGroupSize.y);",
  "        const int workers = int(gl_WorkGroupSize.x);",
  "        ivec3 tid = ivec3(gl_LocalInvocationID);",
  "   ",
  "        int localSize = int(ceil(size/256.0));",
  "        ",
  "        int x = tid.x;",
  "        int y = tid.y;",
  "",
  "        int start = x * (threads * localSize) + y * localSize;",
  "",
  "        int z_offset = tid.z * size;",
  "",
  "        for (int i = 0; i < localSize; i++) \x7b",
  "          int index = start + i + z_offset;",
  "          sum += start < size ? $input_data_0[index, 0, 0]$ : vec4(0.0);",
  "        \x7d",
  "",
  "        value_0 = (sum / size);",
  "        sh_mem[tid.x * tid.y + tid.x] = value_0",
  "",
  "        memoryBarrierShared();",
  "        barrier();",
  "",
  "        if (gid.x >= 1 || gid.y >= 1 || gid.z >= 4)\x7b",
  "          return;",
  "        \x7d",
  "",
  "        for (int i = 0; i < 16; i++)\x7b",
  "          ",
  "        \x7d",
  "      "]

/-- The large-input (h*w > 256) template of the third draft (part_002): the
loops stride by 2, so only about a quarter of the positions are summed, and
the quotient is multiplied by 4.0 to compensate. -/
def meanDraftCSerialSource : String := String.intercalate nlStr [
  "        ",
  "        /*MEAN*/",
  "        highp vec4 sum = vec4(0.0);",
  "        highp float size = float($input_data_0_w$ * $input_data_0_h$);",
  "        for (int h = 0; h < $input_data_0_h$; h+=2) \x7b",
  "          for (int w = 0; w < $input_data_0_w$; w+=2) \x7b",
  "            sum += $input_data_0[w, h, gid.z]$;",
  "          \x7d",
  "        \x7d",
  "",
  "        value_0 = (sum / size) * 4.0;",
  "      "]

/-- The template of mean_reduce.cc: the whole reduction body is commented out
and only a size computation plus an ill-formed shared declaration remain. -/
def meanReduceSource : String := String.intercalate nlStr [
  "",
  "      //MeanReduce",
  "",
  "",
  "      //workgroup test size = 16",
  "      int inputSize = int($input_data_0_w$ * $input_data_0_h$);",
  "      shared float tempSums[floor($input_data_0_w$ * $input_data_0_h$ / 16) + 1];",
  "      ",
  "      ",
  "      ",
  "",
  "      /*",
  "      highp vec4 sum = vec4(0.0);",
  "      highp float size = float($input_data_0_w$ * $input_data_0_h$);",
  "      for (int w = 0; w < $input_data_0_w$; w++) \x7b",
  "        for (int h = 0; h < $input_data_0_h$; h++) \x7b",
  "          sum += $input_data_0[w, h, gid.z]$;",
  "        \x7d",
  "      \x7d",
  "",
  "      value_0 = sum / size;",
  "      */",
  "    "]

/-! ## The generator drafts

Each C++ draft defines a NodeShader class Mean (MeanReduce in
mean_reduce.cc) whose GenerateCode first checks the requested reduction
axes, then reads the single input shape and fills in a GeneratedCode.
Namespaces distinguish the otherwise identically named drafts:
MeanDraftA and MeanDraftB are the first and second half of the first
mean.cc file, MeanDraftC is the second mean.cc file, MeanReduce is
mean_reduce.cc. -/

namespace MeanDraftA

/-- constexpr int kWorkgroupHintX = 4. -/
def kWorkgroupHintX : Nat := 4

/-- constexpr int kWorkgroupHintY = 4. -/
def kWorkgroupHintY : Nat := 4

/-- Embeds int kWorkgroupHintZ = ceil(input->tensor.shape.c / 4.0 - .0001):
for every natural c this double computation yields the ceiling of c/4 (the
.0001 nudge only affects exact multiples of 4, where it cancels the ceil). -/
def kWorkgroupHintZ (c : Nat) : Nat := (c + 3) / 4

/-- GenerateCode of the first mean.cc draft (threshold 1024). -/
def GenerateCode (attrs : MeanAttributes) (input : BHWC) :
    Except GlError GeneratedCode :=
  if attrs.dims ≠ ({Axis.height, Axis.width} : Finset Axis) then
    Except.error (GlError.invalidArgument
      "Mean calculation is supported only for height and width.")
  else
    let parameters : List (String × Int) :=
      [("input_data_0_h", (input.h : Int)),
       ("input_data_0_w", (input.w : Int)),
       ("input_data_0_c", (input.c : Int))]
    let shared_variables : List (String × Nat) :=
      [("sh_mem", kWorkgroupHintX / 2 * kWorkgroupHintX *
                  kWorkgroupHintY / 2 * kWorkgroupHintY *
                  kWorkgroupHintZ input.c)]
    if input.h * input.w ≥ 1024 then
      Except.ok
        { parameters := parameters
          sharedVariables := shared_variables
          workload := ⟨kWorkgroupHintX, kWorkgroupHintY, 1⟩
          workgroup := ⟨kWorkgroupHintX / 2, kWorkgroupHintY / 2, kWorkgroupHintZ input.c⟩
          sourceCode := meanDraftAParallelSource
          input := IOStructure.onlyDefinitions
          output := IOStructure.auto }
    else
      Except.ok
        { parameters := parameters
          sharedVariables := []
          workload := uint3Zero
          workgroup := uint3Zero
          sourceCode := meanDraftASerialSource
          input := IOStructure.onlyDefinitions
          output := IOStructure.auto }

end MeanDraftA

namespace MeanDraftB

/-- GenerateCode of the second mean.cc draft (threshold 2048, fixed
256 * 10 shared-memory sizing moved into both branches). -/
def GenerateCode (attrs : MeanAttributes) (input : BHWC) :
    Except GlError GeneratedCode :=
  if attrs.dims ≠ ({Axis.height, Axis.width} : Finset Axis) then
    Except.error (GlError.invalidArgument
      "Mean calculation is supported only for height and width.")
  else
    let parameters : List (String × Int) :=
      [("input_data_0_h", (input.h : Int)),
       ("input_data_0_w", (input.w : Int)),
       ("input_data_0_c", (input.c : Int))]
    let shared_variables : List (String × Nat) := [("sh_mem", 256 * 10)]
    if input.h * input.w ≥ 2048 then
      Except.ok
        { parameters := parameters
          sharedVariables := shared_variables
          workload := ⟨1, 1, 1⟩
          workgroup := ⟨8, 8, 8⟩
          sourceCode := meanDraftBParallelSource
          input := IOStructure.onlyDefinitions
          output := IOStructure.auto }
    else
      Except.ok
        { parameters := parameters
          sharedVariables := shared_variables
          workload := uint3Zero
          workgroup := uint3Zero
          sourceCode := meanDraftBSerialSource
          input := IOStructure.onlyDefinitions
          output := IOStructure.auto }

end MeanDraftB

namespace MeanDraftC

/-- GenerateCode of the third draft (part_002): only the h and w parameters
are emitted, and the branch condition is inverted relative to the other
drafts (h*w <= 256 selects the workgroup-parallel template). -/
def GenerateCode (attrs : MeanAttributes) (input : BHWC) :
    Except GlError GeneratedCode :=
  if attrs.dims ≠ ({Axis.height, Axis.width} : Finset Axis) then
    Except.error (GlError.invalidArgument
      "Mean calculation is supported only for height and width.")
  else
    let parameters : List (String × Int) :=
      [("input_data_0_h", (input.h : Int)),
       ("input_data_0_w", (input.w : Int))]
    if input.h * input.w ≤ 256 then
      Except.ok
        { parameters := parameters
          sharedVariables := [("sh_mem", 0)]
          workload := ⟨1, 1, 1⟩
          workgroup := ⟨16, 16, 4⟩
          sourceCode := meanDraftCSmallSource
          input := IOStructure.onlyDefinitions
          output := IOStructure.auto }
    else
      Except.ok
        { parameters := parameters
          sharedVariables := []
          workload := uint3Zero
          workgroup := uint3Zero
          sourceCode := meanDraftCSerialSource
          input := IOStructure.onlyDefinitions
          output := IOStructure.auto }

end MeanDraftC

namespace MeanReduce

/-- GenerateCode of mean_reduce.cc: a single unconditional result with the
stubbed-out template, output bound as ONLY_DEFINITIONS. -/
def GenerateCode (attrs : MeanAttributes) (input : BHWC) :
    Except GlError GeneratedCode :=
  if attrs.dims ≠ ({Axis.height, Axis.width} : Finset Axis) then
    Except.error (GlError.invalidArgument
      "Mean calculation is supported only for height and width.")
  else
    Except.ok
      { parameters :=
          [("input_data_0_h", (input.h : Int)),
           ("input_data_0_w", (input.w : Int))]
        sharedVariables := []
        workload := uint3Zero
        workgroup := ⟨16, 16, 4⟩
        sourceCode := meanReduceSource
        input := IOStructure.onlyDefinitions
        output := IOStructure.onlyDefinitions }

end MeanReduce

/-- The attribute value every draft accepts: reduction over height and width. -/
def hwAttrs : MeanAttributes := ⟨{Axis.height, Axis.width}⟩

/-! ## Exact-arithmetic semantics of the emitted kernels

The shader arithmetic is modelled componentwise over Rat: input i is one
component of the packed float4 stream read by the linear accessor
input_data_0[i, 0, 0].  For-loops over index ranges become sums over the
corresponding Finset intervals. -/

/-- int(ceil(size / float(workGridSize))): the per-invocation chunk length of
draft A's parallel kernel, the exact ceiling of N / P. -/
def meanDraftATaskSize (N P : Nat) : Nat := (N + P - 1) / P

/-- Phase 1 of draft A's parallel kernel: one invocation's loop
for (i = startIndex; i < startIndex + taskSize; i++)
  sum += i < size ? input_data_0[z_offset + i, 0, 0] : vec4(0.0);
with z_offset = gid.z * size. -/
def meanDraftAChunkSum (input : Nat → ℚ) (N zOff start ts : Nat) : ℚ :=
  ∑ i ∈ Finset.Ico start (start + ts), if i < N then input (zOff + i) else 0

/-! ### Draft A's parallel kernel under its shipped dispatch geometry

The draft ships workload (4, 4, 1) and workgroup (2, 2, Z) with Z = ceil(c/4),
so the backend dispatches DivideRoundUp(workload, workgroup) = (2, 2, 1)
workgroups: gl_NumWorkGroups = (2, 2, 1) and gl_WorkGroupSize = (2, 2, Z).
The generated-shader preamble binds gid to gl_GlobalInvocationID, hence
gid.x and gid.y range over [0, 4), gid.z over [0, Z) (one workgroup along z),
and localID = gl_LocalInvocationID = (gid.x % 2, gid.y % 2, gid.z).
Consequently the kernel's constants evaluate to
sizeX = sizeY = groupsX = groupsY = 2 and
workGridSize = sizeX * sizeY * groupsX * groupsY = 2 * 2 * 2 * 2 = 16. -/

/-- flattenedIndex = global_grid_index + local_grid_index of the invocation
with global id (gx, gy), with
global_grid_index = gid.x * sizeX * sizeY * groupsY + gid.y * sizeX * sizeY
and local_grid_index = sizeX * localID.y + localID.x, all constants as above.
Over gx, gy in [0, 4) it takes the 16 non-contiguous values
{0, 6, 8, 9, 14, 15, 16, 17, 22, 23, 24, 25, 30, 31, 33, 39}; the four
invocations of workgroup (0, 0) (gx, gy in [0, 2)) get 0, 6, 9 and 15. -/
def meanDraftAFlattenedIndex (gx gy : Nat) : Nat :=
  gx * (2 * 2 * 2) + gy * (2 * 2) + (2 * (gy % 2) + gx % 2)

/-- Slot j of the window [16 z, 16 z + 16) of workgroup (0, 0)'s sh_mem after
the barrier.  sh_mem is workgroup-scoped, so the only writes visible here are
sh_mem[flattenedIndex + 16 * gid.z] by the four invocations of workgroup
(0, 0) itself; an invocation with flattenedIndex f stores its phase-1 chunk
sum over [f * taskSize, (f + 1) * taskSize).  The twelve slots of the window
no invocation of this workgroup writes keep their undefined initial contents,
modelled by the explicit garbage function (indexed by absolute slot). -/
def meanDraftAShMem00 (input garbage : Nat → ℚ) (N z j : Nat) : ℚ :=
  if j = meanDraftAFlattenedIndex 0 0 ∨ j = meanDraftAFlattenedIndex 0 1 ∨
     j = meanDraftAFlattenedIndex 1 0 ∨ j = meanDraftAFlattenedIndex 1 1 then
    meanDraftAChunkSum input N (z * N)
      (j * meanDraftATaskSize N (2 * 2 * 2 * 2)) (meanDraftATaskSize N (2 * 2 * 2 * 2))
  else garbage (j + 2 * 2 * 2 * 2 * z)

/-- value_0 as written by the surviving combiner invocation (gid = (0, 0, z),
the only one that passes the gid.x >= 1 || gid.y >= 1 early return): it sums
the workGridSize = 16 slots sh_mem[i + z * workGridSize] of its own
workgroup's shared array and divides the result once by size. -/
def meanDraftAKernelValue (input garbage : Nat → ℚ) (N z : Nat) : ℚ :=
  (∑ j ∈ Finset.range (2 * 2 * 2 * 2), meanDraftAShMem00 input garbage N z j) / (N : ℚ)

/-- Phase 1 of draft B's parallel kernel:
sum += i >= inputSize ? zilch : input_data_0[i + z_offset, 0, 0];
with zilch = vec4(0.0) and z_offset = localID.z * inputSize. -/
def meanDraftBChunkSum (input : Nat → ℚ) (N zOff start ts : Nat) : ℚ :=
  ∑ i ∈ Finset.Ico start (start + ts), if N ≤ i then 0 else input (i + zOff)

/-- int(ceil(size/256.0)) of draft C's small-input kernel. -/
def meanDraftCLocalSize (N : Nat) : Nat := (N + 255) / 256

/-- The accumulation loop of draft C's small-input kernel:
for (i = 0; i < localSize; i++) sum += start < size ? input_data_0[start + i + z_offset, 0, 0] : vec4(0.0);
note that the guard tests the chunk start, not the running index. -/
def meanDraftCSmallChunkSum (input : Nat → ℚ) (N localSize start zOff : Nat) : ℚ :=
  ∑ i ∈ Finset.range localSize, if start < N then input (start + i + zOff) else 0

/-- value_0 as written by invocation (x, y, z) of draft C's small-input
kernel before the barrier: its own partial sum divided by size
(threads = workers = 16 from the (16,16,4) workgroup). -/
def meanDraftCSmallValue (input : Nat → ℚ) (N x y z : Nat) : ℚ :=
  meanDraftCSmallChunkSum input N (meanDraftCLocalSize N)
    (x * (16 * meanDraftCLocalSize N) + y * meanDraftCLocalSize N) (z * N) / (N : ℚ)

/-- A chunk that lies entirely below the bound sums the constant-one input
to its own length. -/
theorem meanDraftAChunkSum_const_one {N start ts : Nat} (zOff : Nat)
    (h : start + ts ≤ N) :
    meanDraftAChunkSum (fun _ => (1 : ℚ)) N zOff start ts = (ts : ℚ) := by
  unfold meanDraftAChunkSum
  rw [Finset.sum_congr rfl fun i hi =>
        if_pos (lt_of_lt_of_le (Finset.mem_Ico.mp hi).2 h)]
  simp

/-- What the combiner actually divides: the four phase-1 partials its own
workgroup wrote (chunks 0, 6, 9 and 15 of length taskSize) plus the twelve
never-written garbage slots of its window — a single division, but of a
mis-combined total. -/
theorem meanDraftAKernelValue_eq (input garbage : Nat → ℚ) (N z : Nat) :
    meanDraftAKernelValue input garbage N z
      = ((meanDraftAChunkSum input N (z * N)
            (0 * meanDraftATaskSize N 16) (meanDraftATaskSize N 16)
          + meanDraftAChunkSum input N (z * N)
            (6 * meanDraftATaskSize N 16) (meanDraftATaskSize N 16)
          + meanDraftAChunkSum input N (z * N)
            (9 * meanDraftATaskSize N 16) (meanDraftATaskSize N 16)
          + meanDraftAChunkSum input N (z * N)
            (15 * meanDraftATaskSize N 16) (meanDraftATaskSize N 16))
         + ∑ j ∈ (Finset.range 16).filter
             (fun j => ¬(j = 0 ∨ j = 6 ∨ j = 9 ∨ j = 15)), garbage (j + 16 * z))
        / (N : ℚ) := by
  unfold meanDraftAKernelValue meanDraftAShMem00
  rw [Finset.sum_ite]
  have h16 : (2 * 2 * 2 * 2 : Nat) = 16 := rfl
  rw [h16]
  have h1 : (Finset.range 16).filter
      (fun j => j = meanDraftAFlattenedIndex 0 0 ∨ j = meanDraftAFlattenedIndex 0 1 ∨
        j = meanDraftAFlattenedIndex 1 0 ∨ j = meanDraftAFlattenedIndex 1 1)
      = ({0, 6, 9, 15} : Finset Nat) := by decide
  have h2 : (Finset.range 16).filter
      (fun j => ¬(j = meanDraftAFlattenedIndex 0 0 ∨ j = meanDraftAFlattenedIndex 0 1 ∨
        j = meanDraftAFlattenedIndex 1 0 ∨ j = meanDraftAFlattenedIndex 1 1))
      = (Finset.range 16).filter (fun j => ¬(j = 0 ∨ j = 6 ∨ j = 9 ∨ j = 15)) := by decide
  rw [h1, h2, Finset.sum_insert (by decide), Finset.sum_insert (by decide),
      Finset.sum_insert (by decide), Finset.sum_singleton]
  ring

/-! ## Substring search over the embedded template texts -/

/-- Character-list match at the head. -/
def beginsWith : List Char → List Char → Bool
  | _, [] => true
  | [], _ :: _ => false
  | c :: cs, p :: ps => c == p && beginsWith cs ps

/-- Does the pattern occur at some position of the list? -/
def hasSubAux (p : List Char) : List Char → Bool
  | [] => beginsWith [] p
  | c :: cs => beginsWith (c :: cs) p || hasSubAux p cs

/-- Does pat occur as a contiguous substring of s? -/
def strHasSub (s pat : String) : Bool := hasSubAux pat.data s.data

/-- The two full-precision declarations the numeric policy requires: the
accumulator and a divisor named size or inputSize, each with the explicit
highp qualifier. -/
def highpOk (src : String) : Bool :=
  strHasSub src "highp vec4 sum = vec4(0.0);" &&
  (strHasSub src "highp float size = float($input_data_0_w$ * $input_data_0_h$);" ||
   strHasSub src "highp float inputSize = float($input_data_0_w$ * $input_data_0_h$);")

set_option maxRecDepth 40000

theorem highpOk_meanDraftAParallel : highpOk meanDraftAParallelSource = true := by decide

theorem highpOk_meanDraftASerial : highpOk meanDraftASerialSource = true := by decide

theorem highpOk_meanDraftBParallel : highpOk meanDraftBParallelSource = true := by decide

theorem highpOk_meanDraftBSerial : highpOk meanDraftBSerialSource = true := by decide

theorem highpOk_meanDraftCSmall : highpOk meanDraftCSmallSource = true := by decide

theorem highpOk_meanDraftCSerial : highpOk meanDraftCSerialSource = true := by decide

/-! ## Claim theorems -/

/-- Success of draft A under the height-and-width attribute. -/
theorem meanDraftA_ok {attrs : MeanAttributes} {input : BHWC}
    (h : attrs.dims = ({Axis.height, Axis.width} : Finset Axis)) :
    ∃ g, MeanDraftA.GenerateCode attrs input = Except.ok g := by
  unfold MeanDraftA.GenerateCode
  rw [if_neg (fun hne => hne h)]
  dsimp only
  by_cases h2 : input.h * input.w ≥ 1024
  · exact ⟨_, by rw [if_pos h2]⟩
  · exact ⟨_, by rw [if_neg h2]⟩

/-- Success of draft B under the height-and-width attribute. -/
theorem meanDraftB_ok {attrs : MeanAttributes} {input : BHWC}
    (h : attrs.dims = ({Axis.height, Axis.width} : Finset Axis)) :
    ∃ g, MeanDraftB.GenerateCode attrs input = Except.ok g := by
  unfold MeanDraftB.GenerateCode
  rw [if_neg (fun hne => hne h)]
  dsimp only
  by_cases h2 : input.h * input.w ≥ 2048
  · exact ⟨_, by rw [if_pos h2]⟩
  · exact ⟨_, by rw [if_neg h2]⟩

/-- Success of draft C under the height-and-width attribute. -/
theorem meanDraftC_ok {attrs : MeanAttributes} {input : BHWC}
    (h : attrs.dims = ({Axis.height, Axis.width} : Finset Axis)) :
    ∃ g, MeanDraftC.GenerateCode attrs input = Except.ok g := by
  unfold MeanDraftC.GenerateCode
  rw [if_neg (fun hne => hne h)]
  dsimp only
  by_cases h2 : input.h * input.w ≤ 256
  · exact ⟨_, by rw [if_pos h2]⟩
  · exact ⟨_, by rw [if_neg h2]⟩

/-- Success of mean_reduce.cc under the height-and-width attribute. -/
theorem meanReduce_ok {attrs : MeanAttributes} {input : BHWC}
    (h : attrs.dims = ({Axis.height, Axis.width} : Finset Axis)) :
    ∃ g, MeanReduce.GenerateCode attrs input = Except.ok g := by
  unfold MeanReduce.GenerateCode
  rw [if_neg (fun hne => hne h)]
  exact ⟨_, rfl⟩

/-- C1: every generator draft succeeds exactly when the requested reduction
axis set is {HEIGHT, WIDTH}; for any other axis set it fails with the
InvalidArgument error carrying the human-readable message, and this is the
generators' only error path. -/
theorem c1_axes_gate (attrs : MeanAttributes) (input : BHWC) :
    ((∃ g, MeanDraftA.GenerateCode attrs input = Except.ok g) ↔
      attrs.dims = ({Axis.height, Axis.width} : Finset Axis)) ∧
    ((∃ g, MeanDraftB.GenerateCode attrs input = Except.ok g) ↔
      attrs.dims = ({Axis.height, Axis.width} : Finset Axis)) ∧
    ((∃ g, MeanDraftC.GenerateCode attrs input = Except.ok g) ↔
      attrs.dims = ({Axis.height, Axis.width} : Finset Axis)) ∧
    ((∃ g, MeanReduce.GenerateCode attrs input = Except.ok g) ↔
      attrs.dims = ({Axis.height, Axis.width} : Finset Axis)) ∧
    (attrs.dims ≠ ({Axis.height, Axis.width} : Finset Axis) →
      MeanDraftA.GenerateCode attrs input = Except.error (GlError.invalidArgument
        "Mean calculation is supported only for height and width.") ∧
      MeanDraftB.GenerateCode attrs input = Except.error (GlError.invalidArgument
        "Mean calculation is supported only for height and width.") ∧
      MeanDraftC.GenerateCode attrs input = Except.error (GlError.invalidArgument
        "Mean calculation is supported only for height and width.") ∧
      MeanReduce.GenerateCode attrs input = Except.error (GlError.invalidArgument
        "Mean calculation is supported only for height and width.")) := by
  by_cases h : attrs.dims = ({Axis.height, Axis.width} : Finset Axis)
  · exact ⟨⟨fun _ => h, fun _ => meanDraftA_ok h⟩,
      ⟨fun _ => h, fun _ => meanDraftB_ok h⟩,
      ⟨fun _ => h, fun _ => meanDraftC_ok h⟩,
      ⟨fun _ => h, fun _ => meanReduce_ok h⟩,
      fun hne => absurd h hne⟩
  · have eA : MeanDraftA.GenerateCode attrs input = Except.error (GlError.invalidArgument
        "Mean calculation is supported only for height and width.") := by
      unfold MeanDraftA.GenerateCode
      rw [if_pos h]
    have eB : MeanDraftB.GenerateCode attrs input = Except.error (GlError.invalidArgument
        "Mean calculation is supported only for height and width.") := by
      unfold MeanDraftB.GenerateCode
      rw [if_pos h]
    have eC : MeanDraftC.GenerateCode attrs input = Except.error (GlError.invalidArgument
        "Mean calculation is supported only for height and width.") := by
      unfold MeanDraftC.GenerateCode
      rw [if_pos h]
    have eR : MeanReduce.GenerateCode attrs input = Except.error (GlError.invalidArgument
        "Mean calculation is supported only for height and width.") := by
      unfold MeanReduce.GenerateCode
      rw [if_pos h]
    refine ⟨?_, ?_, ?_, ?_, fun _ => ⟨eA, eB, eC, eR⟩⟩ <;>
      exact ⟨fun ⟨g, hg⟩ => by simp [eA, eB, eC, eR] at hg, fun hEq => absurd hEq h⟩

/-- C1 witness: at the concrete attribute set {HEIGHT} the generators fail
with the InvalidArgument message, and at {HEIGHT, WIDTH} draft A succeeds. -/
theorem c1_axes_gate_witness :
    MeanDraftA.GenerateCode ⟨{Axis.height}⟩ ⟨1, 2, 2, 4⟩ =
      Except.error (GlError.invalidArgument
        "Mean calculation is supported only for height and width.") ∧
    ∃ g, MeanDraftA.GenerateCode hwAttrs ⟨1, 2, 2, 4⟩ = Except.ok g :=
  ⟨((c1_axes_gate ⟨{Axis.height}⟩ ⟨1, 2, 2, 4⟩).2.2.2.2 (by decide)).1,
   (c1_axes_gate hwAttrs ⟨1, 2, 2, 4⟩).1.mpr (by decide)⟩

/-- C2 counterexample: with axes {HEIGHT, WIDTH} and shape (h=2, w=2, c=4),
the third draft succeeds but its parameter list names only input_data_0_h and
input_data_0_w — there is no input_data_0_c entry, contradicting the claim
that every returned parameter list carries all three shape values. -/
theorem c2_parameters_counterexample :
    (genParams (MeanDraftC.GenerateCode hwAttrs ⟨1, 2, 2, 4⟩)).map (List.map Prod.fst)
      = some ["input_data_0_h", "input_data_0_w"] ∧
    "input_data_0_c" ∉ ["input_data_0_h", "input_data_0_w"] :=
  ⟨rfl, by decide⟩

/-- C2 amended: for axes = {HEIGHT, WIDTH} and every shape, generation
succeeds and the parameter lists are exactly
(input_data_0_h, h), (input_data_0_w, w), (input_data_0_c, c) for the two
drafts of the first mean.cc file, while the third draft and mean_reduce.cc
emit exactly the h and w entries and no channel parameter. -/
theorem c2_parameters_amended (attrs : MeanAttributes) (input : BHWC)
    (h : attrs.dims = ({Axis.height, Axis.width} : Finset Axis)) :
    genParams (MeanDraftA.GenerateCode attrs input) =
      some [("input_data_0_h", (input.h : Int)),
            ("input_data_0_w", (input.w : Int)),
            ("input_data_0_c", (input.c : Int))] ∧
    genParams (MeanDraftB.GenerateCode attrs input) =
      some [("input_data_0_h", (input.h : Int)),
            ("input_data_0_w", (input.w : Int)),
            ("input_data_0_c", (input.c : Int))] ∧
    genParams (MeanDraftC.GenerateCode attrs input) =
      some [("input_data_0_h", (input.h : Int)),
            ("input_data_0_w", (input.w : Int))] ∧
    genParams (MeanReduce.GenerateCode attrs input) =
      some [("input_data_0_h", (input.h : Int)),
            ("input_data_0_w", (input.w : Int))] := by
  refine ⟨?_, ?_, ?_, ?_⟩
  · unfold MeanDraftA.GenerateCode
    rw [if_neg (fun hne => hne h)]
    dsimp only
    split <;> rfl
  · unfold MeanDraftB.GenerateCode
    rw [if_neg (fun hne => hne h)]
    dsimp only
    split <;> rfl
  · unfold MeanDraftC.GenerateCode
    rw [if_neg (fun hne => hne h)]
    dsimp only
    split <;> rfl
  · unfold MeanReduce.GenerateCode
    rw [if_neg (fun hne => hne h)]
    rfl

/-- C2 witness: the amended parameter lists at the concrete shape
(h=3, w=5, c=7). -/
theorem c2_parameters_witness :
    genParams (MeanDraftA.GenerateCode hwAttrs ⟨1, 3, 5, 7⟩) =
      some [("input_data_0_h", (3 : Int)),
            ("input_data_0_w", (5 : Int)),
            ("input_data_0_c", (7 : Int))] ∧
    genParams (MeanDraftC.GenerateCode hwAttrs ⟨1, 3, 5, 7⟩) =
      some [("input_data_0_h", (3 : Int)),
            ("input_data_0_w", (5 : Int))] :=
  ⟨(c2_parameters_amended hwAttrs ⟨1, 3, 5, 7⟩ (by decide)).1,
   (c2_parameters_amended hwAttrs ⟨1, 3, 5, 7⟩ (by decide)).2.2.1⟩

/-- C3 counterexample: at shape (h=1, w=1, c=4) the first draft takes its
below-threshold branch, yet the returned workgroup is the uint3() zero
sentinel, so the spatial workgroup volume is 0, not 1 — no choice of
threshold T makes the claimed dichotomy (volume 1 below T, volume above 1 at
or above T) hold for this shape. -/
theorem c3_strategy_counterexample :
    (genGeometry (MeanDraftA.GenerateCode hwAttrs ⟨1, 1, 1, 4⟩)).map
        (fun g => g.2.1.x * g.2.1.y) = some 0 ∧
    ¬ ((0 : Nat) = 1 ∨ 1 < (0 : Nat)) :=
  ⟨rfl, by decide⟩

/-- C3 amended: strategy selection in the first draft is a pure function of
h*w against the threshold 1024: below it the serial template ships with the
zero-sentinel dispatch geometry (spatial workgroup volume 0, delegating the
workgroup choice to the backend) and no shared memory; at or above it the
parallel template ships with workgroup (2, 2, ceil(c/4)) — spatial volume
4 > 1 — and shared-memory element count 64 * ceil(c/4), which is positive
whenever the shape has at least one channel. -/
theorem c3_strategy_amended (attrs : MeanAttributes) (input : BHWC)
    (h : attrs.dims = ({Axis.height, Axis.width} : Finset Axis)) :
    (input.h * input.w < 1024 →
      genGeometry (MeanDraftA.GenerateCode attrs input) =
        some (uint3Zero, uint3Zero, [])) ∧
    (1024 ≤ input.h * input.w →
      genGeometry (MeanDraftA.GenerateCode attrs input) =
        some (⟨4, 4, 1⟩, ⟨2, 2, (input.c + 3) / 4⟩,
          [("sh_mem", 64 * ((input.c + 3) / 4))]) ∧
      1 < 2 * 2 ∧
      (1 ≤ input.c → 0 < 64 * ((input.c + 3) / 4))) := by
  constructor
  · intro hlt
    unfold MeanDraftA.GenerateCode
    rw [if_neg (fun hne => hne h)]
    dsimp only
    rw [if_neg (by omega)]
    rfl
  · intro hge
    refine ⟨?_, by decide, fun hc => by omega⟩
    unfold MeanDraftA.GenerateCode
    rw [if_neg (fun hne => hne h)]
    dsimp only
    rw [if_pos (by omega)]
    rfl

/-- C3 witness: the amended geometry at the concrete shapes (1, 1, 4) (serial)
and (32, 32, 4) (parallel). -/
theorem c3_strategy_witness :
    genGeometry (MeanDraftA.GenerateCode hwAttrs ⟨1, 1, 1, 4⟩) =
      some (uint3Zero, uint3Zero, []) ∧
    genGeometry (MeanDraftA.GenerateCode hwAttrs ⟨1, 32, 32, 4⟩) =
      some (⟨4, 4, 1⟩, ⟨2, 2, 1⟩, [("sh_mem", 64)]) :=
  ⟨(c3_strategy_amended hwAttrs ⟨1, 1, 1, 4⟩ (by decide)).1 (by decide),
   ((c3_strategy_amended hwAttrs ⟨1, 32, 32, 4⟩ (by decide)).2 (by decide)).1⟩

/-- C4 counterexample: at shape (h=32, w=32, c=4) the first draft takes the
parallel branch with workgroup (2, 2, 1); the claim predicts a shared-memory
element count of workgroup.x * workgroup.y * ceil(c/4) = 4, but the draft
declares sh_mem with 64 elements. -/
theorem c4_shared_sizing_counterexample :
    (genGeometry (MeanDraftA.GenerateCode hwAttrs ⟨1, 32, 32, 4⟩)).map
        (fun g => (g.2.2, g.2.1.x * g.2.1.y * ((4 + 3) / 4)))
      = some ([("sh_mem", 64)], 4) ∧
    (64 : Nat) ≠ 4 :=
  ⟨rfl, by decide⟩

/-- C4 amended: in the first draft the parallel branch declares sh_mem with
(hintX/2 * hintX * hintY/2 * hintY) * ceil(c/4) = 64 * ceil(c/4) float4
elements — sixteen times the workgroup spatial volume per channel group, not
equal to it — and the serial branch declares no shared memory at all; the
second draft moves a fixed 2560-element declaration into both branches. -/
theorem c4_shared_sizing_amended (attrs : MeanAttributes) (input : BHWC)
    (h : attrs.dims = ({Axis.height, Axis.width} : Finset Axis)) :
    (1024 ≤ input.h * input.w →
      (genGeometry (MeanDraftA.GenerateCode attrs input)).map (fun g => g.2.2)
        = some [("sh_mem", 64 * ((input.c + 3) / 4))]) ∧
    (input.h * input.w < 1024 →
      (genGeometry (MeanDraftA.GenerateCode attrs input)).map (fun g => g.2.2)
        = some []) ∧
    (genGeometry (MeanDraftB.GenerateCode attrs input)).map (fun g => g.2.2)
      = some [("sh_mem", 2560)] := by
  refine ⟨fun hge => ?_, fun hlt => ?_, ?_⟩
  · unfold MeanDraftA.GenerateCode
    rw [if_neg (fun hne => hne h)]
    dsimp only
    rw [if_pos (by omega)]
    rfl
  · unfold MeanDraftA.GenerateCode
    rw [if_neg (fun hne => hne h)]
    dsimp only
    rw [if_neg (by omega)]
    rfl
  · unfold MeanDraftB.GenerateCode
    rw [if_neg (fun hne => hne h)]
    dsimp only
    split <;> rfl

/-- C4 witness: the amended shared-memory sizing at concrete shapes on both
sides of the threshold. -/
theorem c4_shared_sizing_witness :
    (genGeometry (MeanDraftA.GenerateCode hwAttrs ⟨1, 32, 32, 9⟩)).map (fun g => g.2.2)
      = some [("sh_mem", 64 * 3)] ∧
    (genGeometry (MeanDraftA.GenerateCode hwAttrs ⟨1, 5, 5, 9⟩)).map (fun g => g.2.2)
      = some [] :=
  ⟨(c4_shared_sizing_amended hwAttrs ⟨1, 32, 32, 9⟩ (by decide)).1 (by decide),
   (c4_shared_sizing_amended hwAttrs ⟨1, 5, 5, 9⟩ (by decide)).2.1 (by decide)⟩

/-- C5: the emitted kernels do not realize the single-division-of-the-total
design, evaluated at concrete failing inputs.  Draft A's parallel kernel at
shape (h=32, w=32), N = 1024 (above threshold, taskSize 64), every component
1.0 and garbage slots read as 0: the combiner's flattenedIndex decomposition
under the shipped 2x2-workgroup dispatch is non-contiguous and only the four
partials of its own workgroup (chunks 0, 6, 9, 15) were ever written among
the sixteen slots it sums, so it writes (4 * 64)/1024 = 1/4 instead of the
mean 1.  Draft C's small-input kernel at shape (h=2, w=2) with components
0, 1, 2, 3: every invocation divides its own partial by N before the barrier
and the post-barrier combine loop is empty, so the surviving combiner
(0, 0, 0) writes 0/4 = 0 instead of 6/4 = 3/2. -/
theorem c5_division_at_failing_inputs :
    meanDraftAKernelValue (fun _ => (1 : ℚ)) (fun _ => 0) 1024 0 = 1 / 4 ∧
    (∑ i ∈ Finset.range 1024, (1 : ℚ)) / (1024 : ℚ) = 1 ∧
    (1 / 4 : ℚ) ≠ 1 ∧
    meanDraftCSmallValue (fun i => (i : ℚ)) 4 0 0 0 = 0 ∧
    (∑ i ∈ Finset.range 4, ((i : ℚ))) / (4 : ℚ) = 3 / 2 ∧
    (0 : ℚ) ≠ 3 / 2 := by
  refine ⟨?_, ?_, by norm_num, ?_, ?_, by norm_num⟩
  · rw [meanDraftAKernelValue_eq]
    have hts : meanDraftATaskSize 1024 16 = 64 := by norm_num [meanDraftATaskSize]
    rw [hts]
    rw [meanDraftAChunkSum_const_one (0 * 1024) (by norm_num),
        meanDraftAChunkSum_const_one (0 * 1024) (by norm_num),
        meanDraftAChunkSum_const_one (0 * 1024) (by norm_num),
        meanDraftAChunkSum_const_one (0 * 1024) (by norm_num)]
    norm_num
  · rw [Finset.sum_const, Finset.card_range, nsmul_eq_mul]
    norm_num
  · norm_num [meanDraftCSmallValue, meanDraftCSmallChunkSum, meanDraftCLocalSize]
  · norm_num [Finset.sum_range_succ]

/-- C6: in the parallel-phase accumulation loops, any chunk index at or
beyond N contributes exactly zero (draft A's guard i < size and draft B's
guard i >= inputSize), each chunk sum reads only components with index below
N (it coincides with the unguarded sum over the in-range part of the chunk
and is therefore insensitive to values at indices at or beyond N), and in
the third draft's small-input branch (where h*w <= 256 forces localSize = 1)
an invocation whose chunk start is at or beyond N accumulates exactly zero. -/
theorem c6_chunk_remainder_zero (input input2 : Nat → ℚ) (N zOff start ts : Nat) :
    (∀ i, N ≤ i → (if i < N then input (zOff + i) else 0) = 0 ∧
      (if N ≤ i then 0 else input (i + zOff)) = 0) ∧
    meanDraftAChunkSum input N zOff start ts
      = ∑ i ∈ Finset.Ico start (min (start + ts) N), input (zOff + i) ∧
    meanDraftBChunkSum input N zOff start ts
      = ∑ i ∈ Finset.Ico start (min (start + ts) N), input (i + zOff) ∧
    ((∀ j, j < N → input (zOff + j) = input2 (zOff + j)) →
      meanDraftAChunkSum input N zOff start ts
        = meanDraftAChunkSum input2 N zOff start ts) ∧
    (1 ≤ N → N ≤ 256 →
      meanDraftCLocalSize N = 1 ∧
      (N ≤ start →
        meanDraftCSmallChunkSum input N (meanDraftCLocalSize N) start zOff = 0)) := by
  have hA : meanDraftAChunkSum input N zOff start ts
      = ∑ i ∈ Finset.Ico start (min (start + ts) N), input (zOff + i) := by
    unfold meanDraftAChunkSum
    rw [← Finset.sum_filter]
    congr 1
    ext i
    simp only [Finset.mem_filter, Finset.mem_Ico, lt_min_iff]
    omega
  refine ⟨fun i hi => ⟨by rw [if_neg (by omega)], by rw [if_pos hi]⟩, hA, ?_, ?_, ?_⟩
  · unfold meanDraftBChunkSum
    have hswap : ∀ i, (if N ≤ i then (0 : ℚ) else input (i + zOff))
        = if i < N then input (i + zOff) else 0 := by
      intro i
      by_cases hiN : i < N
      · rw [if_neg (by omega), if_pos hiN]
      · rw [if_pos (by omega), if_neg hiN]
    rw [Finset.sum_congr rfl (fun i _ => hswap i), ← Finset.sum_filter]
    congr 1
    ext i
    simp only [Finset.mem_filter, Finset.mem_Ico, lt_min_iff]
    omega
  · intro hagree
    have hA2 : meanDraftAChunkSum input2 N zOff start ts
        = ∑ i ∈ Finset.Ico start (min (start + ts) N), input2 (zOff + i) := by
      unfold meanDraftAChunkSum
      rw [← Finset.sum_filter]
      congr 1
      ext i
      simp only [Finset.mem_filter, Finset.mem_Ico, lt_min_iff]
      omega
    rw [hA, hA2]
    refine Finset.sum_congr rfl fun i hi => ?_
    have hiN : i < N := by
      have := Finset.mem_Ico.mp hi
      omega
    exact hagree i hiN
  · intro h1 h256
    have hls : meanDraftCLocalSize N = 1 := by
      unfold meanDraftCLocalSize
      omega
    refine ⟨hls, fun hstart => ?_⟩
    rw [hls]
    unfold meanDraftCSmallChunkSum
    rw [Finset.sum_range_one, if_neg (by omega)]

/-- C6 witness: with N = 1025 = 41 * 25 (above draft A's threshold and not a
multiple of the 16 spatial invocations, so taskSize = 65 and the last chunk
[975, 1040) overruns), index 1030 contributes zero, and a chunk sum is
unchanged when the out-of-range components are perturbed. -/
theorem c6_chunk_remainder_zero_witness :
    (if (1030 : Nat) < 1025 then ((1030 : Nat) : ℚ) + 0 else 0) = 0 ∧
    meanDraftAChunkSum (fun i => (i : ℚ) + 0) 1025 0 975 65
      = meanDraftAChunkSum (fun i => (i : ℚ) + (if 1025 ≤ i then 100 else 0)) 1025 0 975 65 :=
  ⟨((c6_chunk_remainder_zero (fun i => (i : ℚ) + 0)
        (fun i => (i : ℚ) + (if 1025 ≤ i then 100 else 0)) 1025 0 975 65).1
      1030 (by decide)).1,
   (c6_chunk_remainder_zero (fun i => (i : ℚ) + 0)
        (fun i => (i : ℚ) + (if 1025 ≤ i then 100 else 0)) 1025 0 975 65).2.2.2.1
      (fun j hj => by rw [if_neg (by omega)])⟩

/-- C7: for every shape and in both branches (serial and parallel) of the
three template-emitting drafts, the emitted kernel text declares the vec4
accumulator and the float divisor (size or inputSize) with the explicit highp
qualifier. -/
theorem c7_highp_declarations (attrs : MeanAttributes) (input : BHWC)
    (h : attrs.dims = ({Axis.height, Axis.width} : Finset Axis)) :
    (MeanDraftA.GenerateCode attrs input).toOption.map (fun g => highpOk g.sourceCode)
      = some true ∧
    (MeanDraftB.GenerateCode attrs input).toOption.map (fun g => highpOk g.sourceCode)
      = some true ∧
    (MeanDraftC.GenerateCode attrs input).toOption.map (fun g => highpOk g.sourceCode)
      = some true := by
  refine ⟨?_, ?_, ?_⟩
  · unfold MeanDraftA.GenerateCode
    rw [if_neg (fun hne => hne h)]
    dsimp only
    split
    · exact congrArg some highpOk_meanDraftAParallel
    · exact congrArg some highpOk_meanDraftASerial
  · unfold MeanDraftB.GenerateCode
    rw [if_neg (fun hne => hne h)]
    dsimp only
    split
    · exact congrArg some highpOk_meanDraftBParallel
    · exact congrArg some highpOk_meanDraftBSerial
  · unfold MeanDraftC.GenerateCode
    rw [if_neg (fun hne => hne h)]
    dsimp only
    split
    · exact congrArg some highpOk_meanDraftCSmall
    · exact congrArg some highpOk_meanDraftCSerial

/-- C7 witness: the highp declarations are present in the code generated for
the concrete shape (h=2, w=2, c=4). -/
theorem c7_highp_declarations_witness :
    (MeanDraftA.GenerateCode hwAttrs ⟨1, 2, 2, 4⟩).toOption.map
        (fun g => highpOk g.sourceCode) = some true ∧
    (MeanDraftC.GenerateCode hwAttrs ⟨1, 2, 2, 4⟩).toOption.map
        (fun g => highpOk g.sourceCode) = some true :=
  ⟨(c7_highp_declarations hwAttrs ⟨1, 2, 2, 4⟩ (by decide)).1,
   (c7_highp_declarations hwAttrs ⟨1, 2, 2, 4⟩ (by decide)).2.2⟩

/-- C8 counterexample: mean_reduce.cc succeeds at axes {HEIGHT, WIDTH} and
shape (2, 2, 4) but returns output-binding mode ONLY_DEFINITIONS, not the
fully-bound AUTO mode the claim requires of every successful result. -/
theorem c8_binding_counterexample :
    genIOModes (MeanReduce.GenerateCode hwAttrs ⟨1, 2, 2, 4⟩)
      = some (IOStructure.onlyDefinitions, IOStructure.onlyDefinitions) ∧
    IOStructure.onlyDefinitions ≠ IOStructure.auto :=
  ⟨rfl, by decide⟩

/-- C8 amended: every successful result of the three mean.cc drafts has
input-binding mode ONLY_DEFINITIONS and output-binding mode AUTO (fully
bound), for every shape and in both branches; the mean_reduce.cc draft
instead returns ONLY_DEFINITIONS for both modes. -/
theorem c8_binding_amended (attrs : MeanAttributes) (input : BHWC)
    (h : attrs.dims = ({Axis.height, Axis.width} : Finset Axis)) :
    genIOModes (MeanDraftA.GenerateCode attrs input)
      = some (IOStructure.onlyDefinitions, IOStructure.auto) ∧
    genIOModes (MeanDraftB.GenerateCode attrs input)
      = some (IOStructure.onlyDefinitions, IOStructure.auto) ∧
    genIOModes (MeanDraftC.GenerateCode attrs input)
      = some (IOStructure.onlyDefinitions, IOStructure.auto) ∧
    genIOModes (MeanReduce.GenerateCode attrs input)
      = some (IOStructure.onlyDefinitions, IOStructure.onlyDefinitions) := by
  refine ⟨?_, ?_, ?_, ?_⟩
  · unfold MeanDraftA.GenerateCode
    rw [if_neg (fun hne => hne h)]
    dsimp only
    split <;> rfl
  · unfold MeanDraftB.GenerateCode
    rw [if_neg (fun hne => hne h)]
    dsimp only
    split <;> rfl
  · unfold MeanDraftC.GenerateCode
    rw [if_neg (fun hne => hne h)]
    dsimp only
    split <;> rfl
  · unfold MeanReduce.GenerateCode
    rw [if_neg (fun hne => hne h)]
    rfl

/-- C8 witness: the amended binding modes at the concrete shape (2, 2, 4). -/
theorem c8_binding_witness :
    genIOModes (MeanDraftA.GenerateCode hwAttrs ⟨1, 2, 2, 4⟩)
      = some (IOStructure.onlyDefinitions, IOStructure.auto) ∧
    genIOModes (MeanReduce.GenerateCode hwAttrs ⟨1, 2, 2, 4⟩)
      = some (IOStructure.onlyDefinitions, IOStructure.onlyDefinitions) :=
  ⟨(c8_binding_amended hwAttrs ⟨1, 2, 2, 4⟩ (by decide)).1,
   (c8_binding_amended hwAttrs ⟨1, 2, 2, 4⟩ (by decide)).2.2.2⟩

/-- C9 counterexample: after initialize_counters followed by one call to
tflite_plugin_create_delegate, get_num_delegates_created still returns 0 —
not the 1 the claim predicts — because the create entry point never touches
the counter. -/
theorem c9_counters_counterexample :
    get_num_delegates_created
      ((tflite_plugin_create_delegate (fun (_ : Option Unit) => ())
          (initCounters ⟨3, 4, 5, 6⟩) ["k"] ["v"] 1 ()).2) = 0 ∧
    (0 : Int) ≠ 1 :=
  ⟨rfl, by decide⟩

/-- C9 amended: the shim declares the diagnostic counters but neither
tflite_plugin_create_delegate nor tflite_plugin_destroy_delegate ever
increments them, so after any k creations and m destructions following
initialize_counters both getters return 0 (not k and m). -/
theorem c9_counters_amended {Delegate Options EH : Type}
    (gc : Option Options → Delegate) (gd : Delegate → Unit) (eh : EH)
    (s : CounterState) (ops : List (PluginOp Delegate)) :
    get_num_delegates_created (runPluginOps gc gd eh (initCounters s) ops) = 0 ∧
    get_num_delegates_destroyed (runPluginOps gc gd eh (initCounters s) ops) = 0 := by
  rw [runPluginOps_preserves]
  exact ⟨rfl, rfl⟩

/-- C10: the delegate returned by tflite_plugin_create_delegate is
independent of the option keys, option values, option count, error handler
and counter state — any two calls yield the same handle, and that handle is
always the one the external API constructs from null options. -/
theorem c10_create_ignores_arguments {Delegate Options EH : Type}
    (gc : Option Options → Delegate) (s s' : CounterState)
    (ks vs ks' vs' : List String) (n n' : Nat) (eh eh' : EH) :
    (tflite_plugin_create_delegate gc s ks vs n eh).1
      = (tflite_plugin_create_delegate gc s' ks' vs' n' eh').1 ∧
    (tflite_plugin_create_delegate gc s ks vs n eh).1 = gc none :=
  ⟨rfl, rfl⟩
